import Mathlib

/-!
Verification of the relational-integrity core of the API-MOVILES backend.

The Python source (SQLAlchemy models, Pydantic schemas and the user
repository) is embedded shallowly: each table row becomes a Lean
structure, the database session becomes an explicit `Db` record of row
lists, and each repository function becomes a pure function returning
the new state (fallible operations return `Except`).
-/

/-- `TipoReaccion` from app/models/reaccion.py: like or dislike. -/
inductive TipoReaccion where
  | LIKE
  | DISLIKE
deriving DecidableEq, Repr

/-- `EstatusPublicacion` from app/models/publicacion.py. -/
inductive EstatusPublicacion where
  | PUBLICADA
  | BORRADOR
  | ELIMINADA
deriving DecidableEq, Repr

/-- `EstatusComentario` from app/models/comentario.py. -/
inductive EstatusComentario where
  | ACTIVO
  | ELIMINADO
deriving DecidableEq, Repr

/-- Row of table `Usuario` (app/models/usuario.py).  `contrasena` is the
stored bcrypt hash (column `contraseña`; renamed, Lean identifiers do not
admit `ñ`); `fecha_registro` models the DateTime column as a tick count. -/
structure Usuario where
  id : String
  email : String
  «alias» : String
  contrasena : String
  nombre : Option String
  apellido_paterno : Option String
  apellido_materno : Option String
  telefono : Option String
  direccion : Option String
  fecha_registro : Nat
  foto_perfil : Option String
deriving DecidableEq, Repr

/-- Row of table `Publicacion` (app/models/publicacion.py). -/
structure Publicacion where
  id : String
  titulo : String
  descripcion : Option String
  fecha_creacion : Nat
  fecha_publicacion : Option Nat
  fecha_modificacion : Option Nat
  estatus : EstatusPublicacion
  id_autor : String
deriving DecidableEq, Repr

/-- Row of table `Comentario` (app/models/comentario.py): the two nullable
foreign keys `id_publicacion` / `id_comentario` realise the exclusive-or
target (root comment on a post vs reply to a parent comment). -/
structure Comentario where
  id : String
  estatus : EstatusComentario
  comentario : String
  fecha_creacion : Nat
  id_usuario : String
  id_publicacion : Option String
  id_comentario : Option String
deriving DecidableEq, Repr

/-- Row of table `Reaccion` (app/models/reaccion.py). -/
structure Reaccion where
  id : String
  reaccion : TipoReaccion
  id_usuario : String
  id_publicacion : Option String
  id_comentario : Option String
deriving DecidableEq, Repr

/-- Row of table `Multimedia` (app/models/multimedia.py). -/
structure Multimedia where
  id : String
  url : String
  tipo : Bool
  fecha_subida : Nat
  id_publicacion : String
deriving DecidableEq, Repr

/-- Row of table `Favoritos` (app/models/favorito.py); composite primary
key (id_usuario, id_publicacion). -/
structure Favorito where
  id_usuario : String
  id_publicacion : String
  fecha_guardado : Nat
deriving DecidableEq, Repr

/-- The whole store: one list of rows per table. -/
structure Db where
  usuarios : List Usuario
  publicaciones : List Publicacion
  comentarios : List Comentario
  reacciones : List Reaccion
  multimedia : List Multimedia
  favoritos : List Favorito
deriving DecidableEq, Repr

/-- Python truthiness of an `Optional[str]` value: `None` and the empty
string are falsy, every other string is truthy.  Both schema validators
branch on `if not id_publicacion and not v`, i.e. on truthiness, not on
nullness. -/
def pyTruthy : Option String → Bool
  | none => false
  | some s => !s.isEmpty

namespace ComentarioCreate

/-- `ComentarioCreate.validar_relacion` (app/schemas/comentario.py,
lines 38-51): pydantic validator on `id_comentario`, receiving the already
validated `id_publicacion` through `values`. -/
def validar_relacion (id_publicacion v : Option String) :
    Except String (Option String) :=
  if !pyTruthy id_publicacion && !pyTruthy v then
    Except.error "Debe especificar id_publicacion o id_comentario"
  else if pyTruthy id_publicacion && pyTruthy v then
    Except.error "No puede especificar ambos id_publicacion e id_comentario"
  else
    Except.ok v

end ComentarioCreate

namespace ReaccionCreate

/-- `ReaccionCreate.validar_relacion` (app/schemas/reaccion.py,
lines 30-43): same rule for reaction payloads. -/
def validar_relacion (id_publicacion v : Option String) :
    Except String (Option String) :=
  if !pyTruthy id_publicacion && !pyTruthy v then
    Except.error "Debe especificar id_publicacion o id_comentario"
  else if pyTruthy id_publicacion && pyTruthy v then
    Except.error "No puede especificar ambos id_publicacion e id_comentario"
  else
    Except.ok v

end ReaccionCreate

/-- `Publicacion.eliminar_logicamente` (app/models/publicacion.py,
lines 170-172): soft delete, sets only the status. -/
def Publicacion.eliminar_logicamente (p : Publicacion) : Publicacion :=
  { p with estatus := EstatusPublicacion.ELIMINADA }

/-- `Comentario.eliminar_logicamente` (app/models/comentario.py,
lines 173-176): soft delete, sets the status and overwrites the body with
the tombstone text. -/
def Comentario.eliminar_logicamente (c : Comentario) : Comentario :=
  { c with estatus := EstatusComentario.ELIMINADO,
           comentario := "[Comentario eliminado]" }

/-- `Reaccion.cambiar_reaccion` (app/models/reaccion.py, lines 141-146):
toggles like and dislike on the row in place. -/
def Reaccion.cambiar_reaccion (r : Reaccion) : Reaccion :=
  if r.reaccion = TipoReaccion.LIKE then
    { r with reaccion := TipoReaccion.DISLIKE }
  else
    { r with reaccion := TipoReaccion.LIKE }

/-- Store-level view of `cambiar_reaccion`: the ORM mutates the row with
the given id inside the session; no row is inserted or removed. -/
def cambiarReaccionDb (db : Db) (rid : String) : Db :=
  { db with reacciones :=
      db.reacciones.map (fun r => if r.id = rid then r.cambiar_reaccion else r) }

/-- Store-level view of a logical delete of a post: the ORM mutates the
matching `Publicacion` row; the dependent tables are not touched
(no cascade is involved in a soft delete). -/
def eliminarLogicamentePublicacionDb (db : Db) (pid : String) : Db :=
  { db with publicaciones :=
      (db.publicaciones.map
        (fun p => if p.id = pid then p.eliminar_logicamente else p)) }

/-- Store-level view of a logical delete of a comment. -/
def eliminarLogicamenteComentarioDb (db : Db) (cid : String) : Db :=
  { db with comentarios :=
      (db.comentarios.map
        (fun c => if c.id = cid then c.eliminar_logicamente else c)) }

/-- Payload of `UsuarioCreate` (app/schemas/usuario.py): the validated
registration request, password still in clear text. -/
structure UsuarioCreate where
  email : String
  «alias» : String
  contrasena : String
  nombre : Option String
  apellido_paterno : Option String
  apellido_materno : Option String
  telefono : Option String
  direccion : Option String
  foto_perfil : Option String
deriving DecidableEq, Repr

/-- Payload of `UsuarioUpdate` (app/schemas/usuario.py): every field is
optional; a missing field (here `none`) is excluded by
`data.dict(exclude_unset=True)` and left untouched. -/
structure UsuarioUpdate where
  email : Option String
  «alias» : Option String
  nombre : Option String
  apellido_paterno : Option String
  apellido_materno : Option String
  telefono : Option String
  direccion : Option String
  foto_perfil : Option String
deriving DecidableEq, Repr

/-- `crear_usuario` (app/repositories/usuario.py, lines 18-61).  The id,
the registration timestamp and the hash function are generated outside the
function's own logic (uuid4, CURRENT_TIMESTAMP, bcrypt), so they enter as
parameters.  Failure raises `ValueError`, modelled as `Except.error`. -/
def crear_usuario (hashFn : String → String) (newId : String) (now : Nat)
    (db : Db) (data : UsuarioCreate) : Except String (Db × Usuario) :=
  if db.usuarios.any (fun u => u.email = data.email) then
    Except.error "El email ya está registrado"
  else if db.usuarios.any (fun u => u.«alias» = data.«alias») then
    Except.error "El alias ya está en uso"
  else
    let nuevo_usuario : Usuario :=
      { id := newId
        email := data.email
        «alias» := data.«alias»
        contrasena := hashFn data.contrasena
        nombre := data.nombre
        apellido_paterno := data.apellido_paterno
        apellido_materno := data.apellido_materno
        telefono := data.telefono
        direccion := data.direccion
        fecha_registro := now
        foto_perfil := data.foto_perfil }
    Except.ok ({ db with usuarios := db.usuarios ++ [nuevo_usuario] }, nuevo_usuario)

/-- `get_usuario_by_id` (app/repositories/usuario.py, lines 98-110):
`.first()` over the id filter. -/
def get_usuario_by_id (db : Db) (usuario_id : String) : Option Usuario :=
  db.usuarios.find? (fun u => u.id = usuario_id)

/-- The `setattr` loop of `actualizar_usuario`: overwrite exactly the
fields present in `update_data`.  `id`, `contraseña` and
`fecha_registro` have no counterpart in `UsuarioUpdate`, so the loop can
never reach them. -/
def aplicarPatch (u : Usuario) (d : UsuarioUpdate) : Usuario :=
  { u with
      email := d.email.getD u.email
      «alias» := d.«alias».getD u.«alias»
      nombre := if d.nombre.isSome then d.nombre else u.nombre
      apellido_paterno :=
        if d.apellido_paterno.isSome then d.apellido_paterno else u.apellido_paterno
      apellido_materno :=
        if d.apellido_materno.isSome then d.apellido_materno else u.apellido_materno
      telefono := if d.telefono.isSome then d.telefono else u.telefono
      direccion := if d.direccion.isSome then d.direccion else u.direccion
      foto_perfil := if d.foto_perfil.isSome then d.foto_perfil else u.foto_perfil }

/-- `actualizar_usuario` (app/repositories/usuario.py, lines 147-188):
returns `none` when the id is absent, raises `ValueError` on an
email/alias collision with another row, otherwise writes the patched
fields back through the session. -/
def actualizar_usuario (db : Db) (usuario_id : String) (data : UsuarioUpdate) :
    Except String (Db × Option Usuario) :=
  match get_usuario_by_id db usuario_id with
  | none => Except.ok (db, none)
  | some usuario =>
    if (match data.email with
        | some e => e ≠ usuario.email && db.usuarios.any (fun u => u.email = e)
        | none => false) then
      Except.error "El email ya está en uso"
    else if (match data.«alias» with
        | some a => a ≠ usuario.«alias» && db.usuarios.any (fun u => u.«alias» = a)
        | none => false) then
      Except.error "El alias ya está en uso"
    else
      Except.ok
        ({ db with usuarios :=
            (db.usuarios.map
              (fun u => if u.id = usuario_id then aplicarPatch u data else u)) },
         some (aplicarPatch usuario data))

/-- Ids of the posts owned by the user being deleted: the
`cascade="all, delete-orphan"` edge Usuario → Publicacion. -/
def deadPubIds (db : Db) (uid : String) : Finset String :=
  ((db.publicaciones.filter (fun p => p.id_autor = uid)).map Publicacion.id).toFinset

/-- A comment is swept by the cascade when the user owns it
(Usuario → Comentario), when its post is being deleted
(Publicacion → Comentario), or when its parent comment is already swept
(Comentario → respuestas, the self-referential edge). -/
def comentarioMuerto (db : Db) (uid : String) (S : Finset String)
    (c : Comentario) : Bool :=
  c.id_usuario = uid ||
  (match c.id_publicacion with
   | some p => decide (p ∈ deadPubIds db uid)
   | none => false) ||
  (match c.id_comentario with
   | some q => decide (q ∈ S)
   | none => false)

/-- One sweep of the comment cascade: the ids of all comments dead given
that the comments in `S` are dead. -/
def pasoComentarios (db : Db) (uid : String) (S : Finset String) : Finset String :=
  ((db.comentarios.filter (comentarioMuerto db uid S)).map Comentario.id).toFinset

/-- The transitive closure of the comment cascade, reached by iterating
the sweep once per comment row (enough to stabilise, proved below). -/
def deadComIds (db : Db) (uid : String) : Finset String :=
  (pasoComentarios db uid)^[db.comentarios.length] ∅

/-- A reaction is swept when the user owns it or its target is swept. -/
def reaccionMuerta (db : Db) (uid : String) (r : Reaccion) : Bool :=
  r.id_usuario = uid ||
  (match r.id_publicacion with
   | some p => decide (p ∈ deadPubIds db uid)
   | none => false) ||
  (match r.id_comentario with
   | some q => decide (q ∈ deadComIds db uid)
   | none => false)

/-- A favorite is swept when the user owns it or its post is swept. -/
def favoritoMuerto (db : Db) (uid : String) (f : Favorito) : Bool :=
  f.id_usuario = uid || decide (f.id_publicacion ∈ deadPubIds db uid)

/-- A media row is swept when its post is swept. -/
def multimediaMuerta (db : Db) (uid : String) (m : Multimedia) : Bool :=
  decide (m.id_publicacion ∈ deadPubIds db uid)

/-- `eliminar_usuario` (app/repositories/usuario.py, lines 236-255)
together with the cascade the ORM relationships perform on
`db.delete(usuario)` (app/models/usuario.py lines 105-131,
publicacion.py lines 107-133, comentario.py lines 107-129): when the id
is absent it returns `False` and touches nothing; otherwise it removes
the user row and, in the same commit, every transitively owned row. -/
def eliminar_usuario (db : Db) (usuario_id : String) : Db × Bool :=
  match get_usuario_by_id db usuario_id with
  | none => (db, false)
  | some _ =>
    ({ usuarios := db.usuarios.filter (fun u => u.id ≠ usuario_id)
       publicaciones :=
         db.publicaciones.filter (fun p => decide (p.id ∉ deadPubIds db usuario_id))
       comentarios :=
         db.comentarios.filter (fun c => decide (c.id ∉ deadComIds db usuario_id))
       reacciones := db.reacciones.filter (fun r => !reaccionMuerta db usuario_id r)
       multimedia := db.multimedia.filter (fun m => !multimediaMuerta db usuario_id m)
       favoritos := db.favoritos.filter (fun f => !favoritoMuerto db usuario_id f) },
     true)

/-- The DELETE /{usuario_id} handler (app/routers/usuario.py,
lines 370-378): a `False` from the repository becomes HTTP 404. -/
def eliminar_usuario_endpoint (db : Db) (usuario_id : String) :
    Except String Db :=
  let r := eliminar_usuario db usuario_id
  if r.2 then Except.ok r.1 else Except.error "Usuario no encontrado"

/-- `check_reaccion_a` (app/models/reaccion.py lines 97-101): exactly one
of the two target columns is non-NULL. -/
def checkReaccion (r : Reaccion) : Bool :=
  (r.id_publicacion.isSome && r.id_comentario.isNone) ||
  (r.id_publicacion.isNone && r.id_comentario.isSome)

/-- Conflict under the two composite UNIQUE constraints
`unique_reaccion_publicacion` and `unique_reaccion_comentario`
(app/models/reaccion.py lines 104-115).  MySQL exempts rows whose indexed
column is NULL, hence the `isSome` guards. -/
def conflictoReaccion (a b : Reaccion) : Bool :=
  a.id_usuario = b.id_usuario &&
  ((a.id_publicacion = b.id_publicacion && a.id_publicacion.isSome) ||
   (a.id_comentario = b.id_comentario && a.id_comentario.isSome))

/-- Modelled from the spec: the repository/router module that inserts a
`Reaccion` row is not part of src/ (only the table declaration is), so
insertion is modelled as the store enforcing the table's own constraints,
with the spec's `DuplicateReaction` error for a uniqueness collision
(spec §4.2 `createReaction`). -/
def crearReaccion (db : Db) (r : Reaccion) : Except String Db :=
  if !checkReaccion r then
    Except.error "ConstraintViolation"
  else if db.reacciones.any (fun a => conflictoReaccion a r) then
    Except.error "DuplicateReaction"
  else if db.reacciones.any (fun a => a.id = r.id) then
    Except.error "ConstraintViolation"
  else
    Except.ok { db with reacciones := db.reacciones ++ [r] }

/-- The uniqueness invariant of spec §3 (Reaction): no two rows of the
reaction table collide on (user, target). -/
def uniqReacciones (db : Db) : Prop :=
  db.reacciones.Pairwise (fun a b => conflictoReaccion a b = false)

section FixpointLemmas

variable {β : Type}

lemma iterChain_subset_succ (F : Finset β → Finset β)
    (hm : ∀ s t : Finset β, s ⊆ t → F s ⊆ F t) :
    ∀ k : Nat, F^[k] ∅ ⊆ F^[k + 1] ∅ := by
  intro k
  induction k with
  | zero => simp
  | succ n ih =>
    rw [Function.iterate_succ_apply', Function.iterate_succ_apply']
    exact hm _ _ ih

lemma iterChain_subset_of_le (F : Finset β → Finset β)
    (hm : ∀ s t : Finset β, s ⊆ t → F s ⊆ F t) :
    ∀ k j : Nat, k ≤ j → F^[k] ∅ ⊆ F^[j] ∅ := by
  intro k j hkj
  induction j with
  | zero =>
    have hk : k = 0 := Nat.le_zero.mp hkj
    subst hk
    exact subset_rfl
  | succ n ih =>
    rcases Nat.lt_or_ge k (n + 1) with h | h
    · exact subset_trans (ih (Nat.lt_succ_iff.mp h)) (iterChain_subset_succ F hm n)
    · have hk : k = n + 1 := Nat.le_antisymm hkj h
      subst hk
      exact subset_rfl

lemma iterChain_stall (F : Finset β → Finset β) (k : Nat)
    (h : F^[k] ∅ = F^[k + 1] ∅) :
    ∀ j : Nat, k ≤ j → F^[j] ∅ = F^[k] ∅ := by
  intro j hkj
  induction j with
  | zero =>
    have hk : k = 0 := Nat.le_zero.mp hkj
    subst hk
    rfl
  | succ n ih =>
    rcases Nat.lt_or_ge k (n + 1) with hlt | hge
    · have hn := ih (Nat.lt_succ_iff.mp hlt)
      calc F^[n + 1] ∅ = F (F^[n] ∅) := Function.iterate_succ_apply' F n ∅
        _ = F (F^[k] ∅) := by rw [hn]
        _ = F^[k + 1] ∅ := (Function.iterate_succ_apply' F k ∅).symm
        _ = F^[k] ∅ := h.symm
    · have hk : k = n + 1 := Nat.le_antisymm hkj hge
      subst hk
      rfl

lemma iterChain_card_ge (F : Finset β → Finset β)
    (hm : ∀ s t : Finset β, s ⊆ t → F s ⊆ F t) :
    ∀ k : Nat, (∀ j : Nat, j < k → F^[j] ∅ ≠ F^[j + 1] ∅) →
      k ≤ (F^[k] ∅).card := by
  intro k
  induction k with
  | zero => intro _; exact Nat.zero_le _
  | succ n ih =>
    intro hne
    have hn : n ≤ (F^[n] ∅).card :=
      ih (fun j hj => hne j (Nat.lt_succ_of_lt hj))
    have hss : F^[n] ∅ ⊂ F^[n + 1] ∅ :=
      Finset.ssubset_iff_subset_ne.mpr
        ⟨iterChain_subset_succ F hm n, hne n (Nat.lt_succ_self n)⟩
    have := Finset.card_lt_card hss
    omega

lemma iterChain_fixed (F : Finset β → Finset β)
    (hm : ∀ s t : Finset β, s ⊆ t → F s ⊆ F t)
    (U : Finset β) (hb : ∀ s : Finset β, F s ⊆ U) (n : Nat)
    (hn : U.card ≤ n) :
    F (F^[n] ∅) = F^[n] ∅ := by
  by_cases hstall : ∃ j : Nat, j ≤ U.card ∧ F^[j] ∅ = F^[j + 1] ∅
  · rcases hstall with ⟨j, hj, hfix⟩
    have h1 : F^[n] ∅ = F^[j] ∅ :=
      iterChain_stall F j hfix n (le_trans hj hn)
    have h2 : F^[n + 1] ∅ = F^[j] ∅ :=
      iterChain_stall F j hfix (n + 1) (le_trans hj (Nat.le_succ_of_le hn))
    calc F (F^[n] ∅) = F^[n + 1] ∅ := (Function.iterate_succ_apply' F n ∅).symm
      _ = F^[j] ∅ := h2
      _ = F^[n] ∅ := by rw [h1]
  · push_neg at hstall
    have hne : ∀ j : Nat, j < U.card + 1 → F^[j] ∅ ≠ F^[j + 1] ∅ :=
      fun j hj => hstall j (Nat.lt_succ_iff.mp hj)
    have hge := iterChain_card_ge F hm (U.card + 1) hne
    have hsub : F^[U.card + 1] ∅ ⊆ U := by
      rw [Function.iterate_succ_apply']
      exact hb _
    have := Finset.card_le_card hsub
    omega

end FixpointLemmas

lemma mem_deadPubIds {db : Db} {uid x : String} :
    x ∈ deadPubIds db uid ↔
      ∃ p : Publicacion, p ∈ db.publicaciones ∧ p.id_autor = uid ∧ p.id = x := by
  simp only [deadPubIds, List.mem_toFinset, List.mem_map, List.mem_filter,
    decide_eq_true_eq]
  constructor
  · rintro ⟨p, ⟨hp, ha⟩, hid⟩
    exact ⟨p, hp, ha, hid⟩
  · rintro ⟨p, hp, ha, hid⟩
    exact ⟨p, ⟨hp, ha⟩, hid⟩

lemma mem_pasoComentarios {db : Db} {uid x : String} {S : Finset String} :
    x ∈ pasoComentarios db uid S ↔
      ∃ c : Comentario, c ∈ db.comentarios ∧
        comentarioMuerto db uid S c = true ∧ c.id = x := by
  simp only [pasoComentarios, List.mem_toFinset, List.mem_map, List.mem_filter]
  constructor
  · rintro ⟨c, ⟨hc, hm⟩, hid⟩
    exact ⟨c, hc, hm, hid⟩
  · rintro ⟨c, hc, hm, hid⟩
    exact ⟨c, ⟨hc, hm⟩, hid⟩

lemma comentarioMuerto_mono {db : Db} {uid : String} {S T : Finset String}
    (hST : S ⊆ T) {c : Comentario}
    (h : comentarioMuerto db uid S c = true) :
    comentarioMuerto db uid T c = true := by
  unfold comentarioMuerto at h ⊢
  cases hq : c.id_comentario with
  | none =>
    rw [hq] at h
    simpa using h
  | some q =>
    rw [hq] at h
    rcases Bool.or_eq_true_iff.mp h with h1 | h2
    · exact Bool.or_eq_true_iff.mpr (Or.inl h1)
    · have hqS : q ∈ S := by simpa using h2
      have hqT : decide (q ∈ T) = true := by simpa using hST hqS
      exact Bool.or_eq_true_iff.mpr (Or.inr hqT)

lemma pasoComentarios_mono (db : Db) (uid : String) :
    ∀ S T : Finset String, S ⊆ T →
      pasoComentarios db uid S ⊆ pasoComentarios db uid T := by
  intro S T hST x hx
  rcases mem_pasoComentarios.mp hx with ⟨c, hc, hm, hid⟩
  exact mem_pasoComentarios.mpr ⟨c, hc, comentarioMuerto_mono hST hm, hid⟩

lemma pasoComentarios_bound (db : Db) (uid : String) :
    ∀ S : Finset String,
      pasoComentarios db uid S ⊆ (db.comentarios.map Comentario.id).toFinset := by
  intro S x hx
  rcases mem_pasoComentarios.mp hx with ⟨c, hc, _, hid⟩
  exact List.mem_toFinset.mpr (List.mem_map.mpr ⟨c, hc, hid⟩)

/-- The comment cascade closure is a genuine fixed point of the sweep:
one more sweep adds nothing. -/
lemma deadComIds_fixed (db : Db) (uid : String) :
    pasoComentarios db uid (deadComIds db uid) = deadComIds db uid := by
  have hcard : ((db.comentarios.map Comentario.id).toFinset).card ≤
      db.comentarios.length := by
    calc ((db.comentarios.map Comentario.id).toFinset).card ≤
        (db.comentarios.map Comentario.id).length := List.toFinset_card_le _
      _ = db.comentarios.length := List.length_map _ _
  exact iterChain_fixed (pasoComentarios db uid) (pasoComentarios_mono db uid)
    ((db.comentarios.map Comentario.id).toFinset) (pasoComentarios_bound db uid)
    db.comentarios.length hcard

/-- Any comment of the table satisfying the sweep condition at the
closure is itself in the closure. -/
lemma comentario_dead_of_muerto {db : Db} {uid : String} {c : Comentario}
    (hc : c ∈ db.comentarios)
    (hm : comentarioMuerto db uid (deadComIds db uid) c = true) :
    c.id ∈ deadComIds db uid := by
  have := mem_pasoComentarios.mpr ⟨c, hc, hm, rfl⟩
  rwa [deadComIds_fixed] at this

/-- C1 counterexample: the payload `id_publicacion = some ""`,
`id_comentario = none` has exactly one non-null target, yet both
validators reject it with the "no target" error, because the Python code
tests truthiness (`if not id_publicacion`) and the empty string is falsy. -/
theorem c1_counterexample :
    (some "" : Option String).isSome = true ∧
    (none : Option String).isSome = false ∧
    ComentarioCreate.validar_relacion (some "") none =
      Except.error "Debe especificar id_publicacion o id_comentario" ∧
    ReaccionCreate.validar_relacion (some "") none =
      Except.error "Debe especificar id_publicacion o id_comentario" :=
  ⟨rfl, rfl, rfl, rfl⟩

/-- C1 (amended): for Comment and Reaction creation payloads alike,
validation succeeds (returning the reply-target field unchanged) iff
exactly one of the two target fields is truthy, i.e. non-null and
non-empty; when neither is truthy the validator fails with the
"no target" message, when both are truthy with the "both targets"
message; and the two entity kinds use pointwise identical validators. -/
theorem c1_validador_asociacion_xor (a b : Option String) :
    (ComentarioCreate.validar_relacion a b = Except.ok b ↔
      pyTruthy a ≠ pyTruthy b) ∧
    (ComentarioCreate.validar_relacion a b =
        Except.error "Debe especificar id_publicacion o id_comentario" ↔
      (pyTruthy a = false ∧ pyTruthy b = false)) ∧
    (ComentarioCreate.validar_relacion a b =
        Except.error "No puede especificar ambos id_publicacion e id_comentario" ↔
      (pyTruthy a = true ∧ pyTruthy b = true)) ∧
    ReaccionCreate.validar_relacion a b = ComentarioCreate.validar_relacion a b := by
  cases hA : pyTruthy a <;> cases hB : pyTruthy b <;>
    simp [ComentarioCreate.validar_relacion, ReaccionCreate.validar_relacion,
      hA, hB]

/-- C4 counterexample: logically deleting a published post flips its
status but leaves the body text exactly as it was — no tombstone marker
is written for posts. -/
theorem c4_counterexample :
    (Publicacion.eliminar_logicamente
      { id := "p1", titulo := "Pozole", descripcion := some "Receta original",
        fecha_creacion := 0, fecha_publicacion := none,
        fecha_modificacion := none,
        estatus := EstatusPublicacion.PUBLICADA,
        id_autor := "u1" }).estatus = EstatusPublicacion.ELIMINADA ∧
    (Publicacion.eliminar_logicamente
      { id := "p1", titulo := "Pozole", descripcion := some "Receta original",
        fecha_creacion := 0, fecha_publicacion := none,
        fecha_modificacion := none,
        estatus := EstatusPublicacion.PUBLICADA,
        id_autor := "u1" }).descripcion = some "Receta original" :=
  ⟨rfl, rfl⟩

/-- C4 (amended): the logical delete of a Comment sets its status to
eliminado and replaces the body with the tombstone text
"[Comentario eliminado]", leaving every other field unchanged; the
logical delete of a Post only sets its status to eliminada, leaving the
body and every other field unchanged (no tombstone for posts); in both
cases the row itself is kept and no other table — in particular the
children (comments, replies, media) — is touched. -/
theorem c4_eliminacion_logica (p : Publicacion) (c : Comentario)
    (db : Db) (pid cid : String) :
    (p.eliminar_logicamente.estatus = EstatusPublicacion.ELIMINADA ∧
     p.eliminar_logicamente.descripcion = p.descripcion ∧
     p.eliminar_logicamente.id = p.id ∧
     p.eliminar_logicamente.titulo = p.titulo ∧
     p.eliminar_logicamente.fecha_creacion = p.fecha_creacion ∧
     p.eliminar_logicamente.fecha_publicacion = p.fecha_publicacion ∧
     p.eliminar_logicamente.fecha_modificacion = p.fecha_modificacion ∧
     p.eliminar_logicamente.id_autor = p.id_autor) ∧
    (c.eliminar_logicamente.estatus = EstatusComentario.ELIMINADO ∧
     c.eliminar_logicamente.comentario = "[Comentario eliminado]" ∧
     c.eliminar_logicamente.id = c.id ∧
     c.eliminar_logicamente.fecha_creacion = c.fecha_creacion ∧
     c.eliminar_logicamente.id_usuario = c.id_usuario ∧
     c.eliminar_logicamente.id_publicacion = c.id_publicacion ∧
     c.eliminar_logicamente.id_comentario = c.id_comentario) ∧
    ((eliminarLogicamentePublicacionDb db pid).publicaciones.length =
       db.publicaciones.length ∧
     (eliminarLogicamentePublicacionDb db pid).comentarios = db.comentarios ∧
     (eliminarLogicamentePublicacionDb db pid).multimedia = db.multimedia ∧
     (eliminarLogicamentePublicacionDb db pid).reacciones = db.reacciones ∧
     (eliminarLogicamentePublicacionDb db pid).favoritos = db.favoritos ∧
     (eliminarLogicamentePublicacionDb db pid).usuarios = db.usuarios) ∧
    ((eliminarLogicamenteComentarioDb db cid).comentarios.length =
       db.comentarios.length ∧
     (eliminarLogicamenteComentarioDb db cid).publicaciones = db.publicaciones ∧
     (eliminarLogicamenteComentarioDb db cid).multimedia = db.multimedia ∧
     (eliminarLogicamenteComentarioDb db cid).reacciones = db.reacciones ∧
     (eliminarLogicamenteComentarioDb db cid).favoritos = db.favoritos ∧
     (eliminarLogicamenteComentarioDb db cid).usuarios = db.usuarios) := by
  refine ⟨⟨rfl, rfl, rfl, rfl, rfl, rfl, rfl, rfl⟩,
          ⟨rfl, rfl, rfl, rfl, rfl, rfl, rfl⟩, ?_, ?_⟩ <;>
    simp [eliminarLogicamentePublicacionDb, eliminarLogicamenteComentarioDb]

/-- C5: `cambiar_reaccion` toggles the reaction kind in place: the kind
after the call differs from the kind before, the id, owner and both
target references are unchanged, and the store-level operation keeps the
number of reaction rows unchanged (no new row). -/
theorem c5_cambiar_reaccion_en_sitio (r : Reaccion) (db : Db) (rid : String) :
    r.cambiar_reaccion.reaccion ≠ r.reaccion ∧
    r.cambiar_reaccion.id = r.id ∧
    r.cambiar_reaccion.id_usuario = r.id_usuario ∧
    r.cambiar_reaccion.id_publicacion = r.id_publicacion ∧
    r.cambiar_reaccion.id_comentario = r.id_comentario ∧
    (cambiarReaccionDb db rid).reacciones.length = db.reacciones.length := by
  refine ⟨?_, ?_, ?_, ?_, ?_, ?_⟩ <;>
    first
      | (cases h : r.reaccion <;> simp [Reaccion.cambiar_reaccion, h])
      | simp [cambiarReaccionDb]

/-- C9: `cambiar_reaccion` is an involution on the reaction kind:
applied twice it restores the whole row, and applied once it always
yields a kind different from the original, sending like to dislike and
dislike to like. -/
theorem c9_cambiar_reaccion_involucion (r : Reaccion) :
    r.cambiar_reaccion.cambiar_reaccion = r ∧
    r.cambiar_reaccion.reaccion ≠ r.reaccion ∧
    (r.reaccion = TipoReaccion.LIKE →
      r.cambiar_reaccion.reaccion = TipoReaccion.DISLIKE) ∧
    (r.reaccion = TipoReaccion.DISLIKE →
      r.cambiar_reaccion.reaccion = TipoReaccion.LIKE) := by
  cases r with
  | mk i k u pidp pidc =>
    cases k <;> simp [Reaccion.cambiar_reaccion]

lemma get_usuario_by_id_eq_none {db : Db} {uid : String}
    (h : ∀ u ∈ db.usuarios, u.id ≠ uid) :
    get_usuario_by_id db uid = none := by
  unfold get_usuario_by_id
  rw [List.find?_eq_none]
  intro u hu
  simpa using h u hu

/-- C6 counterexample: on a store holding only user "u1", the first
delete succeeds, but repeating the delete does not succeed as a no-op —
the repository reports `False` and the route handler turns that into an
HTTP 404 error. -/
theorem c6_counterexample :
    (eliminar_usuario
      { usuarios := [{ id := "u1", email := "a@b.mx", «alias» := "chef",
                       contrasena := "h", nombre := none,
                       apellido_paterno := none, apellido_materno := none,
                       telefono := none, direccion := none,
                       fecha_registro := 0, foto_perfil := none }],
        publicaciones := [], comentarios := [], reacciones := [],
        multimedia := [], favoritos := [] } "u1").2 = true ∧
    eliminar_usuario_endpoint
      (eliminar_usuario
        { usuarios := [{ id := "u1", email := "a@b.mx", «alias» := "chef",
                         contrasena := "h", nombre := none,
                         apellido_paterno := none, apellido_materno := none,
                         telefono := none, direccion := none,
                         fecha_registro := 0, foto_perfil := none }],
          publicaciones := [], comentarios := [], reacciones := [],
          multimedia := [], favoritos := [] } "u1").1 "u1" =
      Except.error "Usuario no encontrado" :=
  ⟨rfl, rfl⟩

/-- C6 (amended): deleting an id absent from the store leaves the store
unchanged, but it is reported as a failure, not a no-op success: the
repository returns `False` and the HTTP layer answers 404
"Usuario no encontrado"; hence a second delete of the same User fails
instead of succeeding. -/
theorem c6_eliminar_ausente (db : Db) (uid : String)
    (h : ∀ u ∈ db.usuarios, u.id ≠ uid) :
    eliminar_usuario db uid = (db, false) ∧
    eliminar_usuario_endpoint db uid = Except.error "Usuario no encontrado" := by
  have hfind := get_usuario_by_id_eq_none h
  constructor
  · simp [eliminar_usuario, hfind]
  · simp [eliminar_usuario_endpoint, eliminar_usuario, hfind]

/-- Witness for C6 at the empty store. -/
theorem c6_eliminar_ausente_witness :
    eliminar_usuario
      { usuarios := [], publicaciones := [], comentarios := [],
        reacciones := [], multimedia := [], favoritos := [] } "u1" =
      ({ usuarios := [], publicaciones := [], comentarios := [],
         reacciones := [], multimedia := [], favoritos := [] }, false) ∧
    eliminar_usuario_endpoint
      { usuarios := [], publicaciones := [], comentarios := [],
        reacciones := [], multimedia := [], favoritos := [] } "u1" =
      Except.error "Usuario no encontrado" :=
  c6_eliminar_ausente _ "u1" (by simp)

/-- C7: updating a user whose id is absent returns the None result and
leaves the store untouched; on an exising user only the fields present
in the patch are overwritten, the system-managed `id`,
`fecha_registro` and the password hash are never changed by the update,
and every row other than the target survives the update unchanged. -/
theorem c7_actualizar_usuario (db : Db) (uid : String) (d : UsuarioUpdate)
    (u : Usuario) :
    ((∀ w ∈ db.usuarios, w.id ≠ uid) →
      actualizar_usuario db uid d = Except.ok (db, none)) ∧
    ((aplicarPatch u d).id = u.id ∧
     (aplicarPatch u d).fecha_registro = u.fecha_registro ∧
     (aplicarPatch u d).contrasena = u.contrasena ∧
     (d.email = none → (aplicarPatch u d).email = u.email) ∧
     (∀ v, d.email = some v → (aplicarPatch u d).email = v) ∧
     (d.«alias» = none → (aplicarPatch u d).«alias» = u.«alias») ∧
     (∀ v, d.«alias» = some v → (aplicarPatch u d).«alias» = v) ∧
     (d.nombre = none → (aplicarPatch u d).nombre = u.nombre) ∧
     (∀ v, d.nombre = some v → (aplicarPatch u d).nombre = some v) ∧
     (d.apellido_paterno = none →
       (aplicarPatch u d).apellido_paterno = u.apellido_paterno) ∧
     (∀ v, d.apellido_paterno = some v →
       (aplicarPatch u d).apellido_paterno = some v) ∧
     (d.apellido_materno = none →
       (aplicarPatch u d).apellido_materno = u.apellido_materno) ∧
     (∀ v, d.apellido_materno = some v →
       (aplicarPatch u d).apellido_materno = some v) ∧
     (d.telefono = none → (aplicarPatch u d).telefono = u.telefono) ∧
     (∀ v, d.telefono = some v → (aplicarPatch u d).telefono = some v) ∧
     (d.direccion = none → (aplicarPatch u d).direccion = u.direccion) ∧
     (∀ v, d.direccion = some v → (aplicarPatch u d).direccion = some v) ∧
     (d.foto_perfil = none → (aplicarPatch u d).foto_perfil = u.foto_perfil) ∧
     (∀ v, d.foto_perfil = some v → (aplicarPatch u d).foto_perfil = some v)) ∧
    (∀ db' r, actualizar_usuario db uid d = Except.ok (db', r) →
      ∀ w ∈ db.usuarios, w.id ≠ uid → w ∈ db'.usuarios) := by
  refine ⟨?_, ?_, ?_⟩
  · intro h
    simp [actualizar_usuario, get_usuario_by_id_eq_none h]
  · refine ⟨rfl, rfl, rfl, ?_, ?_, ?_, ?_, ?_, ?_, ?_, ?_, ?_, ?_, ?_, ?_,
      ?_, ?_, ?_, ?_⟩ <;>
      first
        | (intro hd; simp [aplicarPatch, hd])
        | (intro v hd; simp [aplicarPatch, hd])
  · intro db' r h w hw hne
    unfold actualizar_usuario at h
    split at h
    · simp only [Except.ok.injEq, Prod.mk.injEq] at h
      rw [← h.1]
      exact hw
    · split at h
      · exact absurd h (by simp)
      · split at h
        · exact absurd h (by simp)
        · simp only [Except.ok.injEq, Prod.mk.injEq] at h
          rw [← h.1]
          exact List.mem_map.mpr ⟨w, hw, by simp [hne]⟩

/-- Witness for C7: a patch setting only the first name, applied to an
absent id and evaluated on the frame conditions at a concrete user. -/
theorem c7_actualizar_usuario_witness :
    actualizar_usuario
      { usuarios := [], publicaciones := [], comentarios := [],
        reacciones := [], multimedia := [], favoritos := [] } "u9"
      { email := none, «alias» := none, nombre := some "Ana",
        apellido_paterno := none, apellido_materno := none,
        telefono := none, direccion := none, foto_perfil := none } =
      Except.ok
        ({ usuarios := [], publicaciones := [], comentarios := [],
           reacciones := [], multimedia := [], favoritos := [] }, none) ∧
    (aplicarPatch
      { id := "u1", email := "a@b.mx", «alias» := "chef", contrasena := "h",
        nombre := none, apellido_paterno := none, apellido_materno := none,
        telefono := none, direccion := none, fecha_registro := 7,
        foto_perfil := none }
      { email := none, «alias» := none, nombre := some "Ana",
        apellido_paterno := none, apellido_materno := none,
        telefono := none, direccion := none, foto_perfil := none }).id = "u1" :=
  ⟨((c7_actualizar_usuario _ "u9" _
      { id := "u1", email := "a@b.mx", «alias» := "chef", contrasena := "h",
        nombre := none, apellido_paterno := none, apellido_materno := none,
        telefono := none, direccion := none, fecha_registro := 7,
        foto_perfil := none }).1 (by simp)),
   ((c7_actualizar_usuario
      { usuarios := [], publicaciones := [], comentarios := [],
        reacciones := [], multimedia := [], favoritos := [] } "u9"
      { email := none, «alias» := none, nombre := some "Ana",
        apellido_paterno := none, apellido_materno := none,
        telefono := none, direccion := none, foto_perfil := none }
      { id := "u1", email := "a@b.mx", «alias» := "chef", contrasena := "h",
        nombre := none, apellido_paterno := none, apellido_materno := none,
        telefono := none, direccion := none, fecha_registro := 7,
        foto_perfil := none }).2.1.1)⟩

/-- C8: user creation enforces email and alias uniqueness: when the
email or the alias collides with an existing row the repository raises
(`Except.error`) and produces no new state, while a fresh email and
alias yield success with exactly the old rows plus one new row carrying
the requested email and alias. -/
theorem c8_crear_usuario_unicidad (hashFn : String → String)
    (newId : String) (now : Nat) (db : Db) (data : UsuarioCreate) :
    ((db.usuarios.any (fun u => u.email = data.email) = true ∨
      db.usuarios.any (fun u => u.«alias» = data.«alias») = true) →
      ∃ e, crear_usuario hashFn newId now db data = Except.error e) ∧
    ((db.usuarios.any (fun u => u.email = data.email) = false ∧
      db.usuarios.any (fun u => u.«alias» = data.«alias») = false) →
      ∃ nuevo, crear_usuario hashFn newId now db data =
          Except.ok ({ db with usuarios := db.usuarios ++ [nuevo] }, nuevo) ∧
        nuevo.email = data.email ∧ nuevo.«alias» = data.«alias» ∧
        nuevo.id = newId) := by
  constructor
  · rintro (h | h)
    · refine ⟨"El email ya está registrado", ?_⟩
      simp [crear_usuario, h]
    · by_cases hm : db.usuarios.any (fun u => u.email = data.email) = true
      · refine ⟨"El email ya está registrado", ?_⟩
        simp [crear_usuario, hm]
      · refine ⟨"El alias ya está en uso", ?_⟩
        unfold crear_usuario
        rw [if_neg (by simpa using hm), if_pos h]
  · rintro ⟨h1, h2⟩
    refine ⟨{ id := newId, email := data.email, «alias» := data.«alias»,
              contrasena := hashFn data.contrasena, nombre := data.nombre,
              apellido_paterno := data.apellido_paterno,
              apellido_materno := data.apellido_materno,
              telefono := data.telefono, direccion := data.direccion,
              fecha_registro := now, foto_perfil := data.foto_perfil },
            ?_, rfl, rfl, rfl⟩
    unfold crear_usuario
    rw [if_neg (by simp [h1]), if_neg (by simp [h2])]

/-- Witness for C8: on a store holding one user, re-using the email
fails while a fresh pair succeeds. -/
theorem c8_crear_usuario_unicidad_witness :
    (∃ e, crear_usuario id "u2" 1
      { usuarios := [{ id := "u1", email := "a@b.mx", «alias» := "chef",
                       contrasena := "h", nombre := none,
                       apellido_paterno := none, apellido_materno := none,
                       telefono := none, direccion := none,
                       fecha_registro := 0, foto_perfil := none }],
        publicaciones := [], comentarios := [], reacciones := [],
        multimedia := [], favoritos := [] }
      { email := "a@b.mx", «alias» := "otro", contrasena := "pw",
        nombre := none, apellido_paterno := none, apellido_materno := none,
        telefono := none, direccion := none, foto_perfil := none } =
      Except.error e) :=
  (c8_crear_usuario_unicidad id "u2" 1 _ _).1 (Or.inl (by decide))

lemma conflictoReaccion_symm (a b : Reaccion) :
    conflictoReaccion a b = conflictoReaccion b a := by
  rcases a with ⟨ia, ka, ua, pa, ca⟩
  rcases b with ⟨ib, kb, ub, pb, cb⟩
  by_cases hu : ua = ub
  · subst hu
    by_cases hp : pa = pb
    · subst hp
      by_cases hc : ca = cb
      · subst hc; rfl
      · simp [conflictoReaccion, hc, Ne.symm hc]
    · by_cases hc : ca = cb
      · subst hc; simp [conflictoReaccion, hp, Ne.symm hp]
      · simp [conflictoReaccion, hp, hc, Ne.symm hp, Ne.symm hc]
  · simp [conflictoReaccion, hu, Ne.symm hu]

lemma conflicto_cambiar_left (a b : Reaccion) :
    conflictoReaccion a.cambiar_reaccion b = conflictoReaccion a b := by
  unfold Reaccion.cambiar_reaccion
  split <;> rfl

lemma conflicto_cambiar_right (a b : Reaccion) :
    conflictoReaccion a b.cambiar_reaccion = conflictoReaccion a b := by
  unfold Reaccion.cambiar_reaccion
  split <;> rfl

lemma eliminar_usuario_reacciones_sublist (db : Db) (uid : String) :
    (eliminar_usuario db uid).1.reacciones.Sublist db.reacciones := by
  unfold eliminar_usuario
  split
  · exact List.Sublist.refl _
  · exact List.filter_sublist _

/-- C2: (user, target) uniqueness of reactions.  On any store satisfying
the invariant: an insertion accepted by the store keeps it; a
well-formed second reaction by the same user on the same target is
always rejected with the duplicate-reaction error; flipping a reaction
kind in place keeps the invariant and the row count; and a user hard
delete keeps it. -/
theorem c2_unicidad_reacciones (db : Db) (r : Reaccion) (rid uid : String)
    (hu : uniqReacciones db) :
    (∀ db', crearReaccion db r = Except.ok db' → uniqReacciones db') ∧
    ((checkReaccion r = true ∧
      db.reacciones.any (fun a => conflictoReaccion a r) = true) →
      crearReaccion db r = Except.error "DuplicateReaction") ∧
    uniqReacciones (cambiarReaccionDb db rid) ∧
    (cambiarReaccionDb db rid).reacciones.length = db.reacciones.length ∧
    uniqReacciones (eliminar_usuario db uid).1 := by
  refine ⟨?_, ?_, ?_, ?_, ?_⟩
  · intro db' h
    unfold crearReaccion at h
    split at h
    · exact absurd h (by simp)
    · split at h
      · exact absurd h (by simp)
      · split at h
        · exact absurd h (by simp)
        · rename_i hchk hdup hpk
          simp only [Except.ok.injEq] at h
          rw [← h]
          unfold uniqReacciones at hu ⊢
          simp only
          rw [List.pairwise_append]
          refine ⟨hu, List.pairwise_singleton _ _, ?_⟩
          intro a ha b hb
          have hb' : b = r := by simpa using hb
          subst hb'
          have hall : ∀ x ∈ db.reacciones, conflictoReaccion x b = false := by
            simpa using hdup
          exact hall a ha
  · rintro ⟨hc, hdup⟩
    unfold crearReaccion
    rw [if_neg (by simp [hc]), if_pos hdup]
  · have hf : ∀ a b : Reaccion,
        conflictoReaccion (if a.id = rid then a.cambiar_reaccion else a)
          (if b.id = rid then b.cambiar_reaccion else b) =
        conflictoReaccion a b := by
      intro a b
      by_cases ha : a.id = rid <;> by_cases hb : b.id = rid <;>
        simp [ha, hb, conflicto_cambiar_left, conflicto_cambiar_right]
    unfold uniqReacciones cambiarReaccionDb
    simp only
    rw [List.pairwise_map]
    exact hu.imp_of_mem (fun {a b} _ _ h => by rw [hf a b]; exact h)
  · simp [cambiarReaccionDb]
  · exact List.Pairwise.sublist (eliminar_usuario_reacciones_sublist db uid) hu

/-- Witness for C2: a store holding one like by "u1" on post "p1"
rejects a second reaction by "u1" on "p1" with `DuplicateReaction`. -/
theorem c2_unicidad_reacciones_witness :
    crearReaccion
      { usuarios := [], publicaciones := [], comentarios := [],
        reacciones := [{ id := "r1", reaccion := TipoReaccion.LIKE,
                         id_usuario := "u1", id_publicacion := some "p1",
                         id_comentario := none }],
        multimedia := [], favoritos := [] }
      { id := "r2", reaccion := TipoReaccion.DISLIKE, id_usuario := "u1",
        id_publicacion := some "p1", id_comentario := none } =
      Except.error "DuplicateReaction" :=
  (c2_unicidad_reacciones _ _ "r1" "u1"
    (by simp [uniqReacciones])).2.1 (by decide)

lemma eliminar_usuario_eq_of_encontrado {db : Db} {uid : String}
    (h : (get_usuario_by_id db uid).isSome = true) :
    eliminar_usuario db uid =
      ({ usuarios := db.usuarios.filter (fun u => u.id ≠ uid)
         publicaciones :=
           db.publicaciones.filter (fun p => decide (p.id ∉ deadPubIds db uid))
         comentarios :=
           db.comentarios.filter (fun c => decide (c.id ∉ deadComIds db uid))
         reacciones := db.reacciones.filter (fun r => !reaccionMuerta db uid r)
         multimedia := db.multimedia.filter (fun m => !multimediaMuerta db uid m)
         favoritos := db.favoritos.filter (fun f => !favoritoMuerto db uid f) },
       true) := by
  unfold eliminar_usuario
  split
  · rename_i heq
    rw [heq] at h
    simp at h
  · rfl

/-- C3: hard-deleting an existing user reports success, and in the
(atomic) resulting store no row referencing that user survives in any
table (no owned post, comment, reaction or favorite), while referential
integrity is preserved: every surviving comment, reaction, media and
favorite row still finds its target post / parent comment among the
survivors whenever that target existed before the delete — i.e. all
dependents of the cascaded rows were removed with them. -/
theorem c3_eliminar_usuario_cascada (db : Db) (uid : String)
    (hex : (get_usuario_by_id db uid).isSome = true) :
    (eliminar_usuario db uid).2 = true ∧
    (∀ u ∈ (eliminar_usuario db uid).1.usuarios, u.id ≠ uid) ∧
    (∀ p ∈ (eliminar_usuario db uid).1.publicaciones, p.id_autor ≠ uid) ∧
    (∀ c ∈ (eliminar_usuario db uid).1.comentarios, c.id_usuario ≠ uid) ∧
    (∀ r ∈ (eliminar_usuario db uid).1.reacciones, r.id_usuario ≠ uid) ∧
    (∀ f ∈ (eliminar_usuario db uid).1.favoritos, f.id_usuario ≠ uid) ∧
    (∀ c ∈ (eliminar_usuario db uid).1.comentarios, ∀ p,
      c.id_publicacion = some p → ∀ pub ∈ db.publicaciones, pub.id = p →
        pub ∈ (eliminar_usuario db uid).1.publicaciones) ∧
    (∀ c ∈ (eliminar_usuario db uid).1.comentarios, ∀ q,
      c.id_comentario = some q → ∀ pc ∈ db.comentarios, pc.id = q →
        pc ∈ (eliminar_usuario db uid).1.comentarios) ∧
    (∀ r ∈ (eliminar_usuario db uid).1.reacciones, ∀ p,
      r.id_publicacion = some p → ∀ pub ∈ db.publicaciones, pub.id = p →
        pub ∈ (eliminar_usuario db uid).1.publicaciones) ∧
    (∀ r ∈ (eliminar_usuario db uid).1.reacciones, ∀ q,
      r.id_comentario = some q → ∀ pc ∈ db.comentarios, pc.id = q →
        pc ∈ (eliminar_usuario db uid).1.comentarios) ∧
    (∀ m ∈ (eliminar_usuario db uid).1.multimedia,
      ∀ pub ∈ db.publicaciones, pub.id = m.id_publicacion →
        pub ∈ (eliminar_usuario db uid).1.publicaciones) ∧
    (∀ f ∈ (eliminar_usuario db uid).1.favoritos,
      ∀ pub ∈ db.publicaciones, pub.id = f.id_publicacion →
        pub ∈ (eliminar_usuario db uid).1.publicaciones) := by
  rw [eliminar_usuario_eq_of_encontrado hex]
  simp only [List.mem_filter, decide_eq_true_eq, Bool.not_eq_eq_eq_not,
    Bool.not_true, and_imp]
  refine ⟨trivial, ?_, ?_, ?_, ?_, ?_, ?_, ?_, ?_, ?_, ?_, ?_⟩
  · intro u _ hne
    exact hne
  · intro p hp hpd hEq
    exact hpd (mem_deadPubIds.mpr ⟨p, hp, hEq, rfl⟩)
  · intro c hc hcd hEq
    exact hcd (comentario_dead_of_muerto hc (by simp [comentarioMuerto, hEq]))
  · intro r hr hrm hEq
    rw [reaccionMuerta] at hrm
    simp [hEq] at hrm
  · intro f hf hfm hEq
    rw [favoritoMuerto] at hfm
    simp [hEq] at hfm
  · intro c hc hcd p hcp pub hpub hid
    refine ⟨hpub, fun hpd => ?_⟩
    rw [← hid] at hcp
    exact hcd (comentario_dead_of_muerto hc (by simp [comentarioMuerto, hcp, hpd]))
  · intro c hc hcd q hcq pc hpc hid
    refine ⟨hpc, fun hqd => ?_⟩
    rw [← hid] at hcq
    exact hcd (comentario_dead_of_muerto hc (by simp [comentarioMuerto, hcq, hqd]))
  · intro r hr hrm p hrp pub hpub hid
    refine ⟨hpub, fun hpd => ?_⟩
    rw [reaccionMuerta] at hrm
    rw [← hid] at hrp
    simp [hrp, hpd] at hrm
  · intro r hr hrm q hrq pc hpc hid
    refine ⟨hpc, fun hqd => ?_⟩
    rw [reaccionMuerta] at hrm
    rw [← hid] at hrq
    simp [hrq, hqd] at hrm
  · intro m hm hmm pub hpub hid
    refine ⟨hpub, fun hpd => ?_⟩
    rw [multimediaMuerta] at hmm
    rw [← hid] at hmm
    simp [hpd] at hmm
  · intro f hf hfm pub hpub hid
    refine ⟨hpub, fun hpd => ?_⟩
    rw [favoritoMuerto] at hfm
    rw [← hid] at hfm
    simp [hpd] at hfm

/-- Concrete store for the C3 witness: user "u1" owns post "p1" with a
comment thread, a reaction, a media row and a favorite hanging off it;
user "u2" owns post "p2". -/
def dbEjemplo : Db :=
  { usuarios :=
      [{ id := "u1", email := "a@b.mx", «alias» := "chef", contrasena := "h",
         nombre := none, apellido_paterno := none, apellido_materno := none,
         telefono := none, direccion := none, fecha_registro := 0,
         foto_perfil := none },
       { id := "u2", email := "c@d.mx", «alias» := "cook", contrasena := "h",
         nombre := none, apellido_paterno := none, apellido_materno := none,
         telefono := none, direccion := none, fecha_registro := 0,
         foto_perfil := none }]
    publicaciones :=
      [{ id := "p1", titulo := "Pozole", descripcion := some "rico",
         fecha_creacion := 0, fecha_publicacion := none,
         fecha_modificacion := none,
         estatus := EstatusPublicacion.PUBLICADA, id_autor := "u1" },
       { id := "p2", titulo := "Mole", descripcion := none,
         fecha_creacion := 0, fecha_publicacion := none,
         fecha_modificacion := none,
         estatus := EstatusPublicacion.BORRADOR, id_autor := "u2" }]
    comentarios :=
      [{ id := "c1", estatus := EstatusComentario.ACTIVO, comentario := "wow",
         fecha_creacion := 0, id_usuario := "u2",
         id_publicacion := some "p1", id_comentario := none },
       { id := "c2", estatus := EstatusComentario.ACTIVO, comentario := "si",
         fecha_creacion := 0, id_usuario := "u2",
         id_publicacion := none, id_comentario := some "c1" }]
    reacciones :=
      [{ id := "r1", reaccion := TipoReaccion.LIKE, id_usuario := "u2",
         id_publicacion := none, id_comentario := some "c2" }]
    multimedia :=
      [{ id := "m1", url := "u", tipo := true, fecha_subida := 0,
         id_publicacion := "p1" }]
    favoritos :=
      [{ id_usuario := "u2", id_publicacion := "p1", fecha_guardado := 0 }] }

/-- Witness for C3: applying the cascade theorem to `dbEjemplo` and the
concrete victim "u1". -/
theorem c3_eliminar_usuario_cascada_witness :
    (get_usuario_by_id dbEjemplo "u1").isSome = true ∧
    (eliminar_usuario dbEjemplo "u1").2 = true ∧
    (∀ u ∈ (eliminar_usuario dbEjemplo "u1").1.usuarios, u.id ≠ "u1") ∧
    (∀ c ∈ (eliminar_usuario dbEjemplo "u1").1.comentarios,
      c.id_usuario ≠ "u1") :=
  ⟨rfl,
   (c3_eliminar_usuario_cascada dbEjemplo "u1" rfl).1,
   (c3_eliminar_usuario_cascada dbEjemplo "u1" rfl).2.1,
   (c3_eliminar_usuario_cascada dbEjemplo "u1" rfl).2.2.2.1⟩

/-- UTF-8 encoding of one code point, as `str.encode('utf-8')` produces
per character. -/
def utf8EncodeChar (c : Nat) : List Nat :=
  if c < 128 then [c]
  else if c < 2048 then [192 + c / 64, 128 + c % 64]
  else if c < 65536 then [224 + c / 4096, 128 + (c / 64) % 64, 128 + c % 64]
  else [240 + c / 262144, 128 + (c / 4096) % 64, 128 + (c / 64) % 64,
        128 + c % 64]

/-- `password.encode('utf-8')`: a Python `str` is a sequence of code
points; encoding concatenates the per-character byte sequences. -/
def utf8Encode (s : List Nat) : List Nat :=
  s.foldr (fun c acc => utf8EncodeChar c ++ acc) []

def esContinuacion (b : Nat) : Bool := 128 ≤ b && b < 192

/-- Fuel-indexed body of the UTF-8 decoder below; every step consumes at
least one input byte and one unit of fuel, so fuel equal to the input
length always suffices. -/
def utf8DecodeIgnoreAux : Nat → List Nat → List Nat
  | 0, _ => []
  | _, [] => []
  | fuel + 1, b :: rest =>
    if b < 128 then b :: utf8DecodeIgnoreAux fuel rest
    else if b < 194 then utf8DecodeIgnoreAux fuel rest
    else if b < 224 then
      match rest with
      | b1 :: r1 =>
        if esContinuacion b1 then
          ((b - 192) * 64 + (b1 - 128)) :: utf8DecodeIgnoreAux fuel r1
        else utf8DecodeIgnoreAux fuel rest
      | [] => []
    else if b < 240 then
      match rest with
      | b1 :: b2 :: r2 =>
        if esContinuacion b1 && esContinuacion b2 then
          ((b - 224) * 4096 + (b1 - 128) * 64 + (b2 - 128)) ::
            utf8DecodeIgnoreAux fuel r2
        else utf8DecodeIgnoreAux fuel rest
      | _ => []
    else if b < 245 then
      match rest with
      | b1 :: b2 :: b3 :: r3 =>
        if esContinuacion b1 && esContinuacion b2 && esContinuacion b3 then
          ((b - 240) * 262144 + (b1 - 128) * 4096 + (b2 - 128) * 64 +
            (b3 - 128)) :: utf8DecodeIgnoreAux fuel r3
        else utf8DecodeIgnoreAux fuel rest
      | _ => []
    else utf8DecodeIgnoreAux fuel rest

/-- `bytes.decode('utf-8', errors='ignore')` as CPython behaves on
inputs that are prefixes of valid UTF-8 (the only inputs
`hash_password` feeds it): well-formed sequences decode to their code
point, and the bytes of a malformed or truncated sequence are skipped. -/
def utf8DecodeIgnore (bs : List Nat) : List Nat :=
  utf8DecodeIgnoreAux bs.length bs

/-- The passlib bcrypt context (app/utils/auth.py lines 23-28), an
external collaborator: `hashBytes` hashes the UTF-8 bytes passlib
extracts from the string it is given, `verifyBytes` checks a candidate,
and bcrypt's documented behaviour is that both silently use only the
first 72 bytes — a candidate verifies against a hash exactly when the
two 72-byte truncations agree. -/
structure CryptContext (H : Type) where
  hashBytes : List Nat → H
  verifyBytes : List Nat → H → Bool
  bcrypt_contract :
    ∀ p q, verifyBytes p (hashBytes q) = decide (p.take 72 = q.take 72)

/-- `hash_password` (app/utils/auth.py, lines 35-53): encode the
password, and when it exceeds 72 bytes truncate the byte string, decode
it back ignoring errors, and hash the re-encoded result; otherwise hash
the original. -/
def hash_password {H : Type} (ctx : CryptContext H)
    (password : List Nat) : H :=
  let password_bytes := utf8Encode password
  if password_bytes.length > 72 then
    ctx.hashBytes (utf8Encode (utf8DecodeIgnore (password_bytes.take 72)))
  else
    ctx.hashBytes password_bytes

/-- `verify_password` (app/utils/auth.py, lines 56-67): hands the full
plaintext to the context, with no prior truncation of its own. -/
def verify_password {H : Type} (ctx : CryptContext H)
    (plain : List Nat) (hashed : H) : Bool :=
  ctx.verifyBytes (utf8Encode plain) hashed

/-- A concrete context satisfying the bcrypt contract, used to evaluate
the password functions on explicit inputs. -/
def ctxTrunc : CryptContext (List Nat) :=
  { hashBytes := fun q => q.take 72
    verifyBytes := fun p h => decide (p.take 72 = h)
    bcrypt_contract := fun _ _ => rfl }

/-- C10 counterexample: the passwords 71×'x' + 'é' + 'a' and
71×'x' + 'é' + 'b' agree on their first 72 UTF-8 bytes and both exceed
72 bytes, yet neither verifies against the other's hash — indeed the
first does not even verify against its own hash, because the 72-byte
cut splits the two-byte 'é' and `errors='ignore'` drops the dangling
lead byte, so the stored hash covers only 71 bytes while verification
compares 72. -/
theorem c10_counterexample :
    ((utf8Encode (List.replicate 71 120 ++ [233, 97])).take 72 =
      (utf8Encode (List.replicate 71 120 ++ [233, 98])).take 72) ∧
    (utf8Encode (List.replicate 71 120 ++ [233, 97])).length > 72 ∧
    (utf8Encode (List.replicate 71 120 ++ [233, 98])).length > 72 ∧
    verify_password ctxTrunc (List.replicate 71 120 ++ [233, 97])
      (hash_password ctxTrunc (List.replicate 71 120 ++ [233, 98])) = false ∧
    verify_password ctxTrunc (List.replicate 71 120 ++ [233, 97])
      (hash_password ctxTrunc (List.replicate 71 120 ++ [233, 97])) = false := by
  refine ⟨?_, ?_, ?_, ?_, ?_⟩ <;> decide

/-- C10 (amended): `hash_password` depends only on the first 72 UTF-8
bytes of an over-72-byte input — two such passwords agreeing on those
bytes always produce the same stored hash under any bcrypt context —
and, provided the 72-byte cut does not split a multi-byte character
(the truncated prefix re-encodes to itself), each password also
verifies against the other's hash; when the cut does split a character,
mutual verification fails (see the counterexample). -/
theorem c10_hash_password_prefijo (H : Type) (ctx : CryptContext H)
    (p1 p2 : List Nat)
    (h72 : (utf8Encode p1).take 72 = (utf8Encode p2).take 72)
    (hl1 : (utf8Encode p1).length > 72)
    (hl2 : (utf8Encode p2).length > 72) :
    hash_password ctx p1 = hash_password ctx p2 ∧
    ((utf8Encode (utf8DecodeIgnore ((utf8Encode p1).take 72)) =
        (utf8Encode p1).take 72) →
      (verify_password ctx p1 (hash_password ctx p2) = true ∧
       verify_password ctx p2 (hash_password ctx p1) = true)) := by
  constructor
  · unfold hash_password
    simp only [if_pos hl1, if_pos hl2, h72]
  · intro hclean
    constructor
    · unfold verify_password hash_password
      simp only [if_pos hl2, ← h72, hclean, ctx.bcrypt_contract]
      simp [List.take_take]
    · unfold verify_password hash_password
      simp only [if_pos hl1, hclean, ctx.bcrypt_contract]
      simp [List.take_take, h72]

/-- Witness for C10 on all-ASCII passwords: 73×'x' and 72×'x' + 'y'
share their first 72 bytes, get the same hash, and cross-verify. -/
theorem c10_hash_password_prefijo_witness :
    hash_password ctxTrunc (List.replicate 73 120) =
      hash_password ctxTrunc (List.replicate 72 120 ++ [121]) ∧
    verify_password ctxTrunc (List.replicate 73 120)
      (hash_password ctxTrunc (List.replicate 72 120 ++ [121])) = true :=
  ⟨(c10_hash_password_prefijo (List Nat) ctxTrunc (List.replicate 73 120)
      (List.replicate 72 120 ++ [121]) (by decide) (by decide) (by decide)).1,
   ((c10_hash_password_prefijo (List Nat) ctxTrunc (List.replicate 73 120)
      (List.replicate 72 120 ++ [121]) (by decide) (by decide)
      (by decide)).2 (by decide)).1⟩

/-- Witness for C1: a payload with exactly one truthy target passes both
validators, via the amended characterisation. -/
theorem c1_validador_asociacion_xor_witness :
    ComentarioCreate.validar_relacion (some "p1") none = Except.ok none :=
  (c1_validador_asociacion_xor (some "p1") none).1.mpr (by decide)

/-- Witness for C9 at a concrete like-reaction. -/
theorem c9_cambiar_reaccion_involucion_witness :
    (Reaccion.cambiar_reaccion
      { id := "r9", reaccion := TipoReaccion.LIKE, id_usuario := "u",
        id_publicacion := some "p", id_comentario := none }).reaccion =
      TipoReaccion.DISLIKE :=
  (c9_cambiar_reaccion_involucion _).2.2.1 rfl
